import Mathlib

/-!
Verification development for `mkv_to_web.py`, a thin wrapper that builds
ffmpeg command lines, probes metadata with ffprobe, and sequences single and
batch conversions.  The Python source is shallowly embedded: pure command
construction becomes pure Lean functions over an options record; the effects
of the surrounding orchestration (tool availability, filesystem tests,
subprocess exit codes) become explicit fields of small "world" records, and
each Python function that consumes them becomes a Lean function of the world.

Numbers: Python ints are embedded as `Int`, Python floats (only the start
time and the duration, which the claims never inspect beyond presence and
zero-testing) as `Rat`.  Serialization of numbers into command tokens is
embedded by explicit decimal rendering functions below; no claim depends on
the exact digits of a rendered float, only on which tokens are flags.
-/

/-- One decimal digit `d < 10` as a character, `0 ↦ '0'`, ..., `9 ↦ '9'`. -/
def digitChr (d : Nat) : Char := Char.ofNat (48 + d)

/-- Fuel-driven decimal rendering, least significant digit first pushed onto
`acc`; mirrors the structure of the standard decimal printer. -/
def natStrAux : Nat → Nat → List Char → List Char
  | 0, _, acc => acc
  | fuel + 1, n, acc =>
    if n / 10 = 0 then digitChr (n % 10) :: acc
    else natStrAux fuel (n / 10) (digitChr (n % 10) :: acc)

/-- Decimal digits of a natural number (`800 ↦ "800"`, `0 ↦ "0"`). -/
def natChars (n : Nat) : List Char := natStrAux (n + 1) n []

/-- Decimal rendering of an integer, with a leading `'-'` when negative;
this is what Python's `str` produces on an `int`. -/
def intChars (i : Int) : List Char :=
  if i < 0 then '-' :: natChars i.natAbs else natChars i.toNat

/-- `str` of an embedded Python int. -/
def intStr (i : Int) : String := String.mk (intChars i)

/-- Rendering of an embedded time value (a rational standing in for a Python
float).  The claims never inspect the digits of a rendered time, only whether
the surrounding flag/value pair is present, so the integer/fraction rendering
below is an adequate model of `str` on a float: its alphabet is digits,
`'-'` and `'/'`, disjoint from every flag token. -/
def ratChars (q : ℚ) : List Char :=
  if q.den = 1 then intChars q.num else intChars q.num ++ '/' :: natChars q.den

/-- `str` of an embedded time value. -/
def ratStr (q : ℚ) : String := String.mk (ratChars q)

/-- Python `sep.join(pieces)`. -/
def pyJoin (sep : String) : List String → String
  | [] => ""
  | [x] => x
  | x :: xs => x ++ sep ++ pyJoin sep xs

/-- Python truthiness of an optional float: `None`, `0` and `0.0` are falsy. -/
def qTruthy : Option ℚ → Bool
  | none => false
  | some d => decide (d ≠ 0)

/-- Python truthiness of an optional int: `None` and `0` are falsy. -/
def zTruthy : Option Int → Bool
  | none => false
  | some n => decide (n ≠ 0)

/-- Python truthiness of an optional string: `None` and `""` are falsy. -/
def optStrTruthy : Option String → Bool
  | none => false
  | some s => decide (s ≠ "")

/-- The spec's data-model constraint "optional positive seconds". -/
def optPosQ : Option ℚ → Bool
  | none => true
  | some d => decide (0 < d)

/-- The spec's data-model constraint "optional positive pixel counts". -/
def optPosZ : Option Int → Bool
  | none => true
  | some n => decide (0 < n)

/-- The keyword parameters of `convert_mkv_to_webp` (minus the two paths),
with the Python defaults (`mkv_to_web.py` lines 37-41). -/
structure ConversionOptions where
  start_time : ℚ := 0
  duration : Option ℚ := none
  fps : Int := 12
  width : Option Int := none
  height : Option Int := none
  quality : Int := 80
  lossless : Bool := false
  loop : Bool := true
  verbose : Bool := false
deriving DecidableEq

/-- The `filters` list of `convert_mkv_to_webp` (`mkv_to_web.py` lines
77-85): at most one `scale=...` entry, chosen by Python truthiness of
`width` and `height`. -/
def scale_filters (o : ConversionOptions) : List String :=
  if zTruthy o.width && zTruthy o.height then
    ["scale=" ++ intStr (o.width.getD 0) ++ ":" ++ intStr (o.height.getD 0)]
  else if zTruthy o.width then
    ["scale=" ++ intStr (o.width.getD 0) ++ ":-1"]
  else if zTruthy o.height then
    ["scale=-1:" ++ intStr (o.height.getD 0)]
  else []

/-- The ffmpeg command list built by `convert_mkv_to_webp` (`mkv_to_web.py`
lines 64-109): each `++` below is one `cmd.extend(...)` of the source, in
source order. -/
def buildCmd (input_file output_file : String) (o : ConversionOptions) : List String :=
  ["ffmpeg"]
    ++ ["-i", input_file]
    ++ (if 0 < o.start_time then ["-ss", ratStr o.start_time] else [])
    ++ (if qTruthy o.duration then ["-t", ratStr (o.duration.getD 0)] else [])
    ++ ["-r", intStr o.fps]
    ++ (if scale_filters o ≠ [] then ["-vf", pyJoin "," (scale_filters o)] else [])
    ++ (if o.lossless then ["-lossless", "1"] else ["-quality", intStr o.quality])
    ++ (if o.loop then ["-loop", "0"] else [])
    ++ ["-y", output_file]
    ++ (if o.verbose then [] else ["-loglevel", "error"])

/-- Index of the last occurrence of `c` in `l`, if any (Python `str.rfind`,
with `none` for Python's `-1`). -/
def rfindChar (c : Char) : List Char → Option Nat
  | [] => none
  | a :: rest =>
    match rfindChar c rest with
    | some i => some (i + 1)
    | none => if a = c then some 0 else none

/-- Python `os.path.splitext` (posix): split at the last `'.'` that lies
after the last `'/'`, unless every character of the basename before that dot
is itself a dot (so `".bashrc"` keeps its name). -/
def splitext (p : String) : String × String :=
  let s := p.data
  match rfindChar '.' s with
  | none => (p, "")
  | some di =>
    let si : Int := match rfindChar '/' s with
      | none => -1
      | some j => (j : Int)
    if si < (di : Int) then
      let start := (si + 1).toNat
      let name := (s.drop start).take (di - start)
      if name.all (fun c => c = '.') then (p, "")
      else (String.mk (s.take di), String.mk (s.drop di))
    else (p, "")

/-- Output-name derivation of the single converter (`mkv_to_web.py` lines
58-60): strip the extension, append the fixed suffix and extension. -/
def derive_single (input_file : String) : String :=
  (splitext input_file).1 ++ "_algorithm_viz.webp"

/-- Output-name derivation applied per item by the batch converter
(`mkv_to_web.py` line 191). -/
def derive_batch (mkv_file : String) : String :=
  (splitext mkv_file).1 ++ "_algorithm_viz.webp"

/-- Python `os.path.join` (posix) on two components. -/
def pathJoin (a b : String) : String :=
  if b.data.head? = some '/' then b
  else if a = "" then b
  else if a.data.getLast? = some '/' then a ++ b
  else a ++ "/" ++ b

/-- Python `str.lower` (modelled on the ASCII alphabet, which is all the
filenames here use). -/
def strLower (s : String) : String := String.mk (s.data.map Char.toLower)

/-- Python `str.endswith`. -/
def strEndsWith (s t : String) : Bool :=
  s.data.drop (s.data.length - t.data.length) == t.data

/-- The batch converter's selection test (`mkv_to_web.py` lines 179-180):
`f.lower().endswith('.mkv')`. -/
def isMkvName (f : String) : Bool := strEndsWith (strLower f) ".mkv"

/-- The effects consumed by one run of `convert_mkv_to_webp`: the result of
`check_ffmpeg()`, of `os.path.exists(input_file)`, whether `subprocess.run`
raises, the exit code of the ffmpeg process were it run, and the result of
`os.path.exists(output_file)` after the run. -/
structure World where
  ffmpeg_ok : Bool
  input_exists : Bool
  launch_raises : Bool
  run_exit : Int
  output_exists_after : Bool

/-- Which branch of `convert_mkv_to_webp` reported (each corresponds to one
distinct printed message of the source; names follow the spec's taxonomy). -/
inductive ConvStatus where
  | toolMissing
  | inputNotFound
  | launchFailure
  | success
  | outputNotCreated
  | ffmpegError
deriving DecidableEq

/-- Observable outcome of `convert_mkv_to_webp`: the Python return value
(`result`), which branch printed (`status`), whether the conversion
subprocess was invoked (`launched`), whether installation guidance was
printed (`guidance`), and the command handed to the subprocess (`cmd`,
empty when none was built). -/
structure ConvOutcome where
  status : ConvStatus
  result : Option String
  launched : Bool
  guidance : Bool
  cmd : List String
deriving DecidableEq

/-- `convert_mkv_to_webp` (`mkv_to_web.py` lines 37-133): gate on tool
availability, then on input existence, derive the output name when the
`output_file` argument is falsy, build the command, run it, and report
success only when the exit code is zero and the output file exists. -/
def convert_mkv_to_webp (w : World) (input_file : String)
    (output_file : Option String) (o : ConversionOptions) : ConvOutcome :=
  if w.ffmpeg_ok = false then
    { status := .toolMissing, result := none, launched := false,
      guidance := true, cmd := [] }
  else if w.input_exists = false then
    { status := .inputNotFound, result := none, launched := false,
      guidance := false, cmd := [] }
  else
    let out := if optStrTruthy output_file then output_file.getD ""
               else derive_single input_file
    let cmd := buildCmd input_file out o
    if w.launch_raises then
      { status := .launchFailure, result := none, launched := true,
        guidance := false, cmd := cmd }
    else if w.run_exit = 0 then
      if w.output_exists_after then
        { status := .success, result := some out, launched := true,
          guidance := false, cmd := cmd }
      else
        { status := .outputNotCreated, result := none, launched := true,
          guidance := false, cmd := cmd }
    else
      { status := .ffmpegError, result := none, launched := true,
        guidance := false, cmd := cmd }

/-- The effects consumed by `batch_convert`: the result of
`os.path.isdir(input_dir)`, the directory listing, and, for each listed
name, the world its conversion runs in (the tool check is repeated inside
every `convert_mkv_to_webp` call). -/
structure BatchWorld where
  is_dir : Bool
  files : List String
  conv : String → World

/-- Observable outcome of `batch_convert`: either one of the two early
returns, or the final report of successes out of total together with the
per-item conversion outcomes in file order. -/
inductive BatchOutcome where
  | dirNotFound
  | noFiles
  | done (success_count : Nat) (total : Nat) (outcomes : List ConvOutcome)
deriving DecidableEq

/-- `batch_convert` (`mkv_to_web.py` lines 167-199).  The source's `for`
loop visits every matching file once and bumps `success_count` when the
item's return value is truthy; that traversal is embedded as a `map` over
the matching files and the count as the length of the truthy sublist. -/
def batch_convert (bw : BatchWorld) (input_dir : String)
    (output_dir : Option String) (o : ConversionOptions) : BatchOutcome :=
  if bw.is_dir = false then .dirNotFound
  else
    let out_dir := if optStrTruthy output_dir then output_dir.getD ""
                   else input_dir
    let mkv_files := bw.files.filter isMkvName
    if mkv_files = [] then .noFiles
    else
      let outcomes := mkv_files.map fun f =>
        convert_mkv_to_webp (bw.conv f) (pathJoin input_dir f)
          (some (pathJoin out_dir (derive_batch f))) o
      .done (outcomes.filter fun r => optStrTruthy r.result).length
        mkv_files.length outcomes

/-- Python `s.split(c)` for a one-character separator: splits on every
occurrence, keeping empty pieces. -/
def splitOnChar (c : Char) : List Char → List (List Char)
  | [] => [[]]
  | a :: rest =>
    match splitOnChar c rest with
    | [] => [[]]
    | h :: t => if a = c then [] :: h :: t else (a :: h) :: t

/-- Parse a non-empty all-digit string as a natural number. -/
def parseNatChars (l : List Char) : Option Nat :=
  if l ≠ [] && l.all (fun c => c.isDigit) then
    some (l.foldl (fun a c => 10 * a + (c.toNat - 48)) 0)
  else none

/-- Parse an optionally `'-'`-signed integer literal. -/
def parseIntChars : List Char → Option Int
  | '-' :: rest => (parseNatChars rest).map (fun n => -(n : Int))
  | l => (parseNatChars l).map (fun n => (n : Int))

/-- The reference frame-rate parse demanded by the spec: split the rational
string on `'/'`, parse the two integer halves, and divide numerically;
anything else (including a zero denominator, where Python's division would
raise) yields no value. -/
def refFps (s : String) : Option ℚ :=
  match splitOnChar '/' s.data with
  | [a, b] =>
    match parseIntChars a, parseIntChars b with
    | some x, some y => if y = 0 then none else some ((x : ℚ) / (y : ℚ))
    | _, _ => none
  | _ => none

/-- Modelled from the code (`mkv_to_web.py` line 153): `get_video_info`
computes the frame rate as `eval(stream.get('r_frame_rate', '0/1'))`.
Python's `eval` evaluates arbitrary expressions; it is embedded here on the
arithmetic fragment exercised by the claims — integer literals, one `+`, or
one `/` (true division, raising on a zero denominator, which the caller's
`except` turns into an empty result). -/
def evalFrameRate (s : String) : Option ℚ :=
  match splitOnChar '+' s.data with
  | [a, b] =>
    match parseIntChars a, parseIntChars b with
    | some x, some y => some ((x : ℚ) + (y : ℚ))
    | _, _ => none
  | _ =>
    match splitOnChar '/' s.data with
    | [a, b] =>
      match parseIntChars a, parseIntChars b with
      | some x, some y => if y = 0 then none else some ((x : ℚ) / (y : ℚ))
      | _, _ => none
    | _ => (parseIntChars s.data).map (fun n => (n : ℚ))

/-- The parsed command-line arguments of `main` (`mkv_to_web.py` lines
203-227), with the argparse defaults. -/
structure Args where
  input : String
  output : Option String := none
  start : ℚ := 0
  duration : Option ℚ := none
  fps : Int := 12
  width : Option Int := none
  height : Option Int := none
  quality : Int := 80
  lossless : Bool := false
  no_loop : Bool := false
  batch : Bool := false
  verbose : Bool := false
  info : Bool := false

/-- The filesystem facts `main` consults about its positional argument. -/
structure CliWorld where
  input_is_file : Bool
  input_is_dir : Bool

/-- Which dispatch branch of the CLI ran. -/
inductive MainAction where
  | usageExit
  | infoShown
  | infoUsageError
  | ranBatch
  | ranSingle
deriving DecidableEq

/-- Observable outcome of the CLI: branch taken, how many times
`get_video_info` was invoked, and the process exit status. -/
structure MainResult where
  action : MainAction
  probe_calls : Nat
  exit_code : Nat
deriving DecidableEq

/-- The dispatch logic of `main` (`mkv_to_web.py` lines 229-276): info mode
probes only when the input is a file and otherwise prints a usage error and
returns; batch mode neither probes nor converts here; single mode probes
once before converting.  `main` never calls `sys.exit`, and its `try` block
swallows every exception, so every path through it exits with status 0. -/
def mainModel (w : CliWorld) (a : Args) : MainResult :=
  if a.info then
    if w.input_is_file then
      { action := .infoShown, probe_calls := 1, exit_code := 0 }
    else
      { action := .infoUsageError, probe_calls := 0, exit_code := 0 }
  else if a.batch || w.input_is_dir then
    { action := .ranBatch, probe_calls := 0, exit_code := 0 }
  else
    { action := .ranSingle, probe_calls := 1, exit_code := 0 }

/-- The module entry point (`mkv_to_web.py` lines 279-292): with exactly one
`sys.argv` entry it prints usage and exits with status 1; otherwise it runs
`main`, which always exits with status 0. -/
def script_entry (argc : Nat) (w : CliWorld) (a : Args) : MainResult :=
  if argc = 1 then { action := .usageExit, probe_calls := 0, exit_code := 1 }
  else mainModel w a

/-- Formalisation of spec rule 4 (§4.3) exactly as worded: the scale filter
is chosen by which of width and height are *given* (present). -/
def specScale (o : ConversionOptions) : List String :=
  if o.width.isSome && o.height.isSome then
    ["scale=" ++ intStr (o.width.getD 0) ++ ":" ++ intStr (o.height.getD 0)]
  else if o.width.isSome then
    ["scale=" ++ intStr (o.width.getD 0) ++ ":-1"]
  else if o.height.isSome then
    ["scale=-1:" ++ intStr (o.height.getD 0)]
  else []

/-- Formalisation of the command layout claimed by spec §4.3, rules 1-10 in
their fixed order, each rule's condition exactly as worded: seek iff
`start_time > 0`, duration iff the duration is *set* (present), frame rate
always, video filter iff a scale filter was built, lossless or else quality,
loop flag iff looping, overwrite flag and output always, quiet log level iff
not verbose. -/
def specCommand (input_file output_file : String) (o : ConversionOptions) : List String :=
  ["ffmpeg"]
    ++ ["-i", input_file]
    ++ (if 0 < o.start_time then ["-ss", ratStr o.start_time] else [])
    ++ (if o.duration.isSome then ["-t", ratStr (o.duration.getD 0)] else [])
    ++ ["-r", intStr o.fps]
    ++ (if specScale o ≠ [] then ["-vf", pyJoin "," (specScale o)] else [])
    ++ (if o.lossless then ["-lossless", "1"] else ["-quality", intStr o.quality])
    ++ (if o.loop then ["-loop", "0"] else [])
    ++ ["-y", output_file]
    ++ (if o.verbose then [] else ["-loglevel", "error"])

/-- The tokens of `buildCmd` that precede the video-filter segment. -/
def cmd_pre (input_file : String) (o : ConversionOptions) : List String :=
  ["ffmpeg", "-i", input_file]
    ++ (if 0 < o.start_time then ["-ss", ratStr o.start_time] else [])
    ++ (if qTruthy o.duration then ["-t", ratStr (o.duration.getD 0)] else [])
    ++ ["-r", intStr o.fps]

/-- The tokens of `buildCmd` that follow the video-filter segment. -/
def cmd_post (output_file : String) (o : ConversionOptions) : List String :=
  (if o.lossless then ["-lossless", "1"] else ["-quality", intStr o.quality])
    ++ (if o.loop then ["-loop", "0"] else [])
    ++ ["-y", output_file]
    ++ (if o.verbose then [] else ["-loglevel", "error"])

/-- `s` is the unique filter argument of `cmd`: the token right after the
single `-vf` flag. -/
def vfArgUnique (cmd : List String) (s : String) : Prop :=
  ∃ l r, cmd = l ++ ["-vf", s] ++ r ∧ "-vf" ∉ l ∧ "-vf" ∉ r

/-- A sample options record used to instantiate the hypothesised theorems. -/
def sampleOpts : ConversionOptions :=
  { start_time := 2, duration := some 3, fps := 15, width := some 640,
    height := some 480, quality := 90 }

/-- A sample batch world: a directory listing with two matching names (one
upper-case) and one non-matching name, in which the tool is unavailable. -/
def sampleBatchWorld : BatchWorld :=
  ⟨true, ["a.mkv", "B.MKV", "notes.txt"], fun _ => ⟨false, true, false, 0, false⟩⟩

/-- Every character produced by `natStrAux` on digit-only accumulators is a
decimal digit. -/
theorem natStrAux_digits (fuel : Nat) :
    ∀ n acc, (∀ c ∈ acc, c.isDigit = true) →
      ∀ c ∈ natStrAux fuel n acc, c.isDigit = true := by
  have hdig : ∀ d, d < 10 → (digitChr d).isDigit = true := by decide
  induction fuel with
  | zero => intro n acc h c hc; exact h c hc
  | succ fuel ih =>
    intro n acc h c hc
    have hacc : ∀ c ∈ digitChr (n % 10) :: acc, c.isDigit = true := by
      intro c hc
      rcases List.mem_cons.mp hc with rfl | hc
      · exact hdig _ (Nat.mod_lt _ (by decide))
      · exact h c hc
    simp only [natStrAux] at hc
    split at hc
    · exact hacc c hc
    · exact ih _ _ hacc c hc

/-- Decimal renderings of naturals consist of digit characters only. -/
theorem natChars_digits (n : Nat) : ∀ c ∈ natChars n, c.isDigit = true :=
  natStrAux_digits _ _ _ (by simp)

/-- Decimal renderings of integers consist of digits and possibly `'-'`. -/
theorem intChars_shape (i : Int) :
    ∀ c ∈ intChars i, c.isDigit = true ∨ c = '-' := by
  intro c hc
  unfold intChars at hc
  split at hc
  · rcases List.mem_cons.mp hc with rfl | hc
    · exact Or.inr rfl
    · exact Or.inl (natChars_digits _ c hc)
  · exact Or.inl (natChars_digits _ c hc)

/-- Renderings of time values consist of digits, `'-'` and `'/'`. -/
theorem ratChars_shape (q : ℚ) :
    ∀ c ∈ ratChars q, c.isDigit = true ∨ c = '-' ∨ c = '/' := by
  intro c hc
  unfold ratChars at hc
  split at hc
  · rcases intChars_shape _ c hc with h | h
    · exact Or.inl h
    · exact Or.inr (Or.inl h)
  · rcases List.mem_append.mp hc with hc | hc
    · rcases intChars_shape _ c hc with h | h
      · exact Or.inl h
      · exact Or.inr (Or.inl h)
    · rcases List.mem_cons.mp hc with rfl | hc
      · exact Or.inr (Or.inr rfl)
      · exact Or.inl (natChars_digits _ c hc)

/-- A rendered int can never equal a string containing a character that is
neither a digit nor `'-'` (so in particular no flag token like `"-vf"`). -/
theorem intStr_ne (i : Int) (f : String) (c : Char) (hcf : c ∈ f.data)
    (h1 : c.isDigit = false) (h2 : c ≠ '-') : intStr i ≠ f := by
  intro he
  have hd : f.data = intChars i := by rw [← he]; rfl
  rw [hd] at hcf
  rcases intChars_shape i c hcf with h | h
  · rw [h1] at h; cases h
  · exact h2 h

/-- A rendered time value can never equal a string containing a character
that is neither a digit, `'-'` nor `'/'`. -/
theorem ratStr_ne (q : ℚ) (f : String) (c : Char) (hcf : c ∈ f.data)
    (h1 : c.isDigit = false) (h2 : c ≠ '-') (h3 : c ≠ '/') : ratStr q ≠ f := by
  intro he
  have hd : f.data = ratChars q := by rw [← he]; rfl
  rw [hd] at hcf
  rcases ratChars_shape q c hcf with h | h | h
  · rw [h1] at h; cases h
  · exact h2 h
  · exact h3 h

/-- Two strings with different first characters differ. -/
theorem str_ne_of_head (s t : String) (h : s.data.head? ≠ t.data.head?) :
    s ≠ t := fun e => h (by rw [e])

/-- Each `scale=...` filter string starts with the letter `'s'`. -/
theorem scale_append_head (s : String) :
    ("scale=" ++ s).data.head? = some 's' := by
  rw [String.data_append]; rfl

/-- Membership in the `then`-branch of an if-else-nil list. -/
theorem mem_ite_nil {α : Type} (p : Prop) [Decidable p] (l : List α) (x : α)
    (hx : x ∈ if p then l else []) : p ∧ x ∈ l := by
  split at hx
  · exact ⟨by assumption, hx⟩
  · cases hx

/-- Membership in an if-else list splits by the condition. -/
theorem mem_ite_both {α : Type} (p : Prop) [Decidable p] (l1 l2 : List α) (x : α)
    (hx : x ∈ if p then l1 else l2) : (p ∧ x ∈ l1) ∨ (¬ p ∧ x ∈ l2) := by
  split at hx
  · exact Or.inl ⟨by assumption, hx⟩
  · exact Or.inr ⟨by assumption, hx⟩

/-- Exhaustive inventory of the tokens a built command can contain, with the
guard under which each optional segment contributes. -/
theorem mem_buildCmd (x input output : String) (o : ConversionOptions)
    (hx : x ∈ buildCmd input output o) :
    x = "ffmpeg" ∨ x = "-i" ∨ x = input ∨
    (0 < o.start_time ∧ (x = "-ss" ∨ x = ratStr o.start_time)) ∨
    (qTruthy o.duration = true ∧ (x = "-t" ∨ x = ratStr (o.duration.getD 0))) ∨
    x = "-r" ∨ x = intStr o.fps ∨
    (scale_filters o ≠ [] ∧ (x = "-vf" ∨ x = pyJoin "," (scale_filters o))) ∨
    (o.lossless = true ∧ (x = "-lossless" ∨ x = "1")) ∨
    (o.lossless = false ∧ (x = "-quality" ∨ x = intStr o.quality)) ∨
    (o.loop = true ∧ (x = "-loop" ∨ x = "0")) ∨
    x = "-y" ∨ x = output ∨
    (o.verbose = false ∧ (x = "-loglevel" ∨ x = "error")) := by
  unfold buildCmd at hx
  simp only [List.append_assoc, List.mem_append] at hx
  rcases hx with hx | hx | hx | hx | hx | hx | hx | hx | hx | hx
  · simp only [List.mem_singleton] at hx
    exact Or.inl hx
  · simp only [List.mem_cons, List.not_mem_nil, or_false] at hx
    rcases hx with hx | hx
    · exact Or.inr (Or.inl hx)
    · exact Or.inr (Or.inr (Or.inl hx))
  · obtain ⟨hc, hx⟩ := mem_ite_nil _ _ _ hx
    simp only [List.mem_cons, List.not_mem_nil, or_false] at hx
    exact Or.inr (Or.inr (Or.inr (Or.inl ⟨hc, hx⟩)))
  · obtain ⟨hc, hx⟩ := mem_ite_nil _ _ _ hx
    simp only [List.mem_cons, List.not_mem_nil, or_false] at hx
    exact Or.inr (Or.inr (Or.inr (Or.inr (Or.inl ⟨hc, hx⟩))))
  · simp only [List.mem_cons, List.not_mem_nil, or_false] at hx
    rcases hx with hx | hx
    · exact Or.inr (Or.inr (Or.inr (Or.inr (Or.inr (Or.inl hx)))))
    · exact Or.inr (Or.inr (Or.inr (Or.inr (Or.inr (Or.inr (Or.inl hx))))))
  · obtain ⟨hc, hx⟩ := mem_ite_nil _ _ _ hx
    simp only [List.mem_cons, List.not_mem_nil, or_false] at hx
    exact Or.inr (Or.inr (Or.inr (Or.inr (Or.inr (Or.inr (Or.inr (Or.inl ⟨hc, hx⟩)))))))
  · rcases mem_ite_both _ _ _ _ hx with ⟨hc, hx⟩ | ⟨hc, hx⟩
    · simp only [List.mem_cons, List.not_mem_nil, or_false] at hx
      exact Or.inr (Or.inr (Or.inr (Or.inr (Or.inr (Or.inr (Or.inr (Or.inr (Or.inl ⟨hc, hx⟩))))))))
    · simp only [List.mem_cons, List.not_mem_nil, or_false] at hx
      exact Or.inr (Or.inr (Or.inr (Or.inr (Or.inr (Or.inr (Or.inr (Or.inr (Or.inr (Or.inl
        ⟨Bool.not_eq_true _ ▸ eq_false_of_ne_true hc, hx⟩)))))))))
  · obtain ⟨hc, hx⟩ := mem_ite_nil _ _ _ hx
    simp only [List.mem_cons, List.not_mem_nil, or_false] at hx
    exact Or.inr (Or.inr (Or.inr (Or.inr (Or.inr (Or.inr (Or.inr (Or.inr (Or.inr (Or.inr (Or.inl
      ⟨hc, hx⟩))))))))))
  · simp only [List.mem_cons, List.not_mem_nil, or_false] at hx
    rcases hx with hx | hx
    · exact Or.inr (Or.inr (Or.inr (Or.inr (Or.inr (Or.inr (Or.inr (Or.inr (Or.inr (Or.inr (Or.inr
        (Or.inl hx)))))))))))
    · exact Or.inr (Or.inr (Or.inr (Or.inr (Or.inr (Or.inr (Or.inr (Or.inr (Or.inr (Or.inr (Or.inr
        (Or.inr (Or.inl hx))))))))))))
  · rcases mem_ite_both _ _ _ _ hx with ⟨hc, hx⟩ | ⟨hc, hx⟩
    · cases hx
    · simp only [List.mem_cons, List.not_mem_nil, or_false] at hx
      exact Or.inr (Or.inr (Or.inr (Or.inr (Or.inr (Or.inr (Or.inr (Or.inr (Or.inr (Or.inr (Or.inr
        (Or.inr (Or.inr ⟨eq_false_of_ne_true hc, hx⟩))))))))))))

/-- The filters list is empty or a single string starting with `'s'`. -/
theorem scale_filters_head (o : ConversionOptions) :
    scale_filters o = [] ∨ ∃ s, scale_filters o = [s] ∧ s.data.head? = some 's' := by
  unfold scale_filters
  split_ifs
  · exact Or.inr ⟨_, rfl, by rw [String.data_append, String.data_append, String.data_append]; rfl⟩
  · exact Or.inr ⟨_, rfl, by rw [String.data_append, String.data_append]; rfl⟩
  · exact Or.inr ⟨_, rfl, by rw [String.data_append]; rfl⟩
  · exact Or.inl rfl

/-- Joining a one-element list is the element itself. -/
theorem pyJoin_singleton (sep x : String) : pyJoin sep [x] = x := rfl

/-- `buildCmd` splits around its video-filter segment. -/
theorem buildCmd_decomp (input output : String) (o : ConversionOptions) :
    buildCmd input output o =
      cmd_pre input o
        ++ (if scale_filters o ≠ [] then ["-vf", pyJoin "," (scale_filters o)] else [])
        ++ cmd_post output o := by
  simp only [buildCmd, cmd_pre, cmd_post, List.append_assoc, List.cons_append,
    List.nil_append]

/-- When no scale filter was built, no `-vf` token can occur anywhere in the
command (the paths are assumed not to be the literal flag). -/
theorem vf_not_mem_buildCmd (input output : String) (o : ConversionOptions)
    (hsf : scale_filters o = []) (hin : input ≠ "-vf") (hout : output ≠ "-vf") :
    "-vf" ∉ buildCmd input output o := by
  intro hmem
  rcases mem_buildCmd _ _ _ _ hmem with hx | hx | hx | ⟨hc, hx | hx⟩ | ⟨hc, hx | hx⟩ |
    hx | hx | ⟨hc, hx | hx⟩ | ⟨hc, hx | hx⟩ | ⟨hc, hx | hx⟩ | ⟨hc, hx | hx⟩ | hx | hx |
    ⟨hc, hx | hx⟩
  · exact absurd hx (by decide)
  · exact absurd hx (by decide)
  · exact hin hx.symm
  · exact absurd hx (by decide)
  · exact ratStr_ne o.start_time "-vf" 'v' (by decide) (by decide) (by decide) (by decide) hx.symm
  · exact absurd hx (by decide)
  · exact ratStr_ne (o.duration.getD 0) "-vf" 'v' (by decide) (by decide) (by decide) (by decide) hx.symm
  · exact absurd hx (by decide)
  · exact intStr_ne o.fps "-vf" 'v' (by decide) (by decide) (by decide) hx.symm
  · exact hc hsf
  · exact hc hsf
  · exact absurd hx (by decide)
  · exact absurd hx (by decide)
  · exact absurd hx (by decide)
  · exact intStr_ne o.quality "-vf" 'v' (by decide) (by decide) (by decide) hx.symm
  · exact absurd hx (by decide)
  · exact absurd hx (by decide)
  · exact absurd hx (by decide)
  · exact hout hx.symm
  · exact absurd hx (by decide)
  · exact absurd hx (by decide)

/-- In lossless mode the quality flag occurs nowhere in the command. -/
theorem quality_not_mem_buildCmd (input output : String) (o : ConversionOptions)
    (hloss : o.lossless = true) (hin : input ≠ "-quality") (hout : output ≠ "-quality") :
    "-quality" ∉ buildCmd input output o := by
  intro hmem
  rcases mem_buildCmd _ _ _ _ hmem with hx | hx | hx | ⟨hc, hx | hx⟩ | ⟨hc, hx | hx⟩ |
    hx | hx | ⟨hc, hx | hx⟩ | ⟨hc, hx | hx⟩ | ⟨hc, hx | hx⟩ | ⟨hc, hx | hx⟩ | hx | hx |
    ⟨hc, hx | hx⟩
  · exact absurd hx (by decide)
  · exact absurd hx (by decide)
  · exact hin hx.symm
  · exact absurd hx (by decide)
  · exact ratStr_ne o.start_time "-quality" 'q' (by decide) (by decide) (by decide) (by decide) hx.symm
  · exact absurd hx (by decide)
  · exact ratStr_ne (o.duration.getD 0) "-quality" 'q' (by decide) (by decide) (by decide) (by decide) hx.symm
  · exact absurd hx (by decide)
  · exact intStr_ne o.fps "-quality" 'q' (by decide) (by decide) (by decide) hx.symm
  · exact absurd hx (by decide)
  · rcases scale_filters_head o with h | ⟨s, hs, hhead⟩
    · exact hc h
    · rw [hs, pyJoin_singleton] at hx
      rw [← hx] at hhead
      exact absurd hhead (by decide)
  · exact absurd hx (by decide)
  · exact absurd hx (by decide)
  · rw [hloss] at hc; cases hc
  · rw [hloss] at hc; cases hc
  · exact absurd hx (by decide)
  · exact absurd hx (by decide)
  · exact absurd hx (by decide)
  · exact hout hx.symm
  · exact absurd hx (by decide)
  · exact absurd hx (by decide)

/-- In lossy mode the lossless flag occurs nowhere in the command. -/
theorem lossless_not_mem_buildCmd (input output : String) (o : ConversionOptions)
    (hloss : o.lossless = false) (hin : input ≠ "-lossless") (hout : output ≠ "-lossless") :
    "-lossless" ∉ buildCmd input output o := by
  intro hmem
  rcases mem_buildCmd _ _ _ _ hmem with hx | hx | hx | ⟨hc, hx | hx⟩ | ⟨hc, hx | hx⟩ |
    hx | hx | ⟨hc, hx | hx⟩ | ⟨hc, hx | hx⟩ | ⟨hc, hx | hx⟩ | ⟨hc, hx | hx⟩ | hx | hx |
    ⟨hc, hx | hx⟩
  · exact absurd hx (by decide)
  · exact absurd hx (by decide)
  · exact hin hx.symm
  · exact absurd hx (by decide)
  · exact ratStr_ne o.start_time "-lossless" 'l' (by decide) (by decide) (by decide) (by decide) hx.symm
  · exact absurd hx (by decide)
  · exact ratStr_ne (o.duration.getD 0) "-lossless" 'l' (by decide) (by decide) (by decide) (by decide) hx.symm
  · exact absurd hx (by decide)
  · exact intStr_ne o.fps "-lossless" 'l' (by decide) (by decide) (by decide) hx.symm
  · exact absurd hx (by decide)
  · rcases scale_filters_head o with h | ⟨s, hs, hhead⟩
    · exact hc h
    · rw [hs, pyJoin_singleton] at hx
      rw [← hx] at hhead
      exact absurd hhead (by decide)
  · rw [hloss] at hc; cases hc
  · rw [hloss] at hc; cases hc
  · exact absurd hx (by decide)
  · exact intStr_ne o.quality "-lossless" 'l' (by decide) (by decide) (by decide) hx.symm
  · exact absurd hx (by decide)
  · exact absurd hx (by decide)
  · exact absurd hx (by decide)
  · exact hout hx.symm
  · exact absurd hx (by decide)
  · exact absurd hx (by decide)

/-- When the duration is falsy, the duration flag occurs nowhere in the
command. -/
theorem t_not_mem_buildCmd (input output : String) (o : ConversionOptions)
    (hdur : qTruthy o.duration = false) (hin : input ≠ "-t") (hout : output ≠ "-t") :
    "-t" ∉ buildCmd input output o := by
  intro hmem
  rcases mem_buildCmd _ _ _ _ hmem with hx | hx | hx | ⟨hc, hx | hx⟩ | ⟨hc, hx | hx⟩ |
    hx | hx | ⟨hc, hx | hx⟩ | ⟨hc, hx | hx⟩ | ⟨hc, hx | hx⟩ | ⟨hc, hx | hx⟩ | hx | hx |
    ⟨hc, hx | hx⟩
  · exact absurd hx (by decide)
  · exact absurd hx (by decide)
  · exact hin hx.symm
  · exact absurd hx (by decide)
  · exact ratStr_ne o.start_time "-t" 't' (by decide) (by decide) (by decide) (by decide) hx.symm
  · rw [hdur] at hc; cases hc
  · rw [hdur] at hc; cases hc
  · exact absurd hx (by decide)
  · exact intStr_ne o.fps "-t" 't' (by decide) (by decide) (by decide) hx.symm
  · exact absurd hx (by decide)
  · rcases scale_filters_head o with h | ⟨s, hs, hhead⟩
    · exact hc h
    · rw [hs, pyJoin_singleton] at hx
      rw [← hx] at hhead
      exact absurd hhead (by decide)
  · exact absurd hx (by decide)
  · exact absurd hx (by decide)
  · exact absurd hx (by decide)
  · exact intStr_ne o.quality "-t" 't' (by decide) (by decide) (by decide) hx.symm
  · exact absurd hx (by decide)
  · exact absurd hx (by decide)
  · exact absurd hx (by decide)
  · exact hout hx.symm
  · exact absurd hx (by decide)
  · exact absurd hx (by decide)
theorem zTruthy_eq_isSome (x : Option Int) (h : optPosZ x = true) :
    zTruthy x = x.isSome := by
  cases x with
  | none => rfl
  | some n =>
    simp only [optPosZ, decide_eq_true_eq] at h
    simp [zTruthy, ne_of_gt h]

theorem qTruthy_eq_isSome (x : Option ℚ) (h : optPosQ x = true) :
    qTruthy x = x.isSome := by
  cases x with
  | none => rfl
  | some d =>
    simp only [optPosQ, decide_eq_true_eq] at h
    simp [qTruthy, ne_of_gt h]

theorem scale_filters_eq_spec (o : ConversionOptions)
    (hw : optPosZ o.width = true) (hh : optPosZ o.height = true) :
    scale_filters o = specScale o := by
  simp only [scale_filters, specScale, zTruthy_eq_isSome _ hw, zTruthy_eq_isSome _ hh]

/-- Claim C1: for every options record obeying the data model (positive
duration, width and height when present), the built command consists of the
program name followed by the arguments of spec rules 1-10 in exactly that
fixed order: input flag and path, seek flag iff the start time is positive,
duration flag iff a duration is set, the frame-rate flag always, the
video-filter flag iff a scale filter was built, the lossless or else the
quality flag, the loop flag iff looping, the overwrite flag and output path,
and the quiet log-level flag iff not verbose. -/
theorem spec_c1 (input output : String) (o : ConversionOptions)
    (hd : optPosQ o.duration = true) (hw : optPosZ o.width = true)
    (hh : optPosZ o.height = true) :
    buildCmd input output o = specCommand input output o := by
  simp only [buildCmd, specCommand, qTruthy_eq_isSome _ hd,
    scale_filters_eq_spec o hw hh]

theorem spec_c1_witness :
    optPosQ sampleOpts.duration = true ∧ optPosZ sampleOpts.width = true ∧
    optPosZ sampleOpts.height = true ∧
    buildCmd "clip.mkv" "out.webp" sampleOpts = specCommand "clip.mkv" "out.webp" sampleOpts :=
  ⟨by decide, by decide, by decide, spec_c1 _ _ _ (by decide) (by decide) (by decide)⟩
theorem vf_not_mem_cmd_pre (input : String) (o : ConversionOptions)
    (hin : input ≠ "-vf") : "-vf" ∉ cmd_pre input o := by
  intro hmem
  unfold cmd_pre at hmem
  simp only [List.append_assoc, List.mem_append] at hmem
  rcases hmem with hx | hx | hx | hx
  · simp only [List.mem_cons, List.not_mem_nil, or_false] at hx
    rcases hx with hx | hx | hx
    · exact absurd hx (by decide)
    · exact absurd hx (by decide)
    · exact hin hx.symm
  · obtain ⟨hc, hx⟩ := mem_ite_nil _ _ _ hx
    simp only [List.mem_cons, List.not_mem_nil, or_false] at hx
    rcases hx with hx | hx
    · exact absurd hx (by decide)
    · exact ratStr_ne o.start_time "-vf" 'v' (by decide) (by decide) (by decide) (by decide) hx.symm
  · obtain ⟨hc, hx⟩ := mem_ite_nil _ _ _ hx
    simp only [List.mem_cons, List.not_mem_nil, or_false] at hx
    rcases hx with hx | hx
    · exact absurd hx (by decide)
    · exact ratStr_ne (o.duration.getD 0) "-vf" 'v' (by decide) (by decide) (by decide) (by decide) hx.symm
  · simp only [List.mem_cons, List.not_mem_nil, or_false] at hx
    rcases hx with hx | hx
    · exact absurd hx (by decide)
    · exact intStr_ne o.fps "-vf" 'v' (by decide) (by decide) (by decide) hx.symm

theorem vf_not_mem_cmd_post (output : String) (o : ConversionOptions)
    (hout : output ≠ "-vf") : "-vf" ∉ cmd_post output o := by
  intro hmem
  unfold cmd_post at hmem
  simp only [List.append_assoc, List.mem_append] at hmem
  rcases hmem with hx | hx | hx | hx
  · rcases mem_ite_both _ _ _ _ hx with ⟨hc, hx⟩ | ⟨hc, hx⟩ <;>
      simp only [List.mem_cons, List.not_mem_nil, or_false] at hx
    · rcases hx with hx | hx
      · exact absurd hx (by decide)
      · exact absurd hx (by decide)
    · rcases hx with hx | hx
      · exact absurd hx (by decide)
      · exact intStr_ne o.quality "-vf" 'v' (by decide) (by decide) (by decide) hx.symm
  · obtain ⟨hc, hx⟩ := mem_ite_nil _ _ _ hx
    simp only [List.mem_cons, List.not_mem_nil, or_false] at hx
    rcases hx with hx | hx
    · exact absurd hx (by decide)
    · exact absurd hx (by decide)
  · simp only [List.mem_cons, List.not_mem_nil, or_false] at hx
    rcases hx with hx | hx
    · exact absurd hx (by decide)
    · exact hout hx.symm
  · rcases mem_ite_both _ _ _ _ hx with ⟨hc, hx⟩ | ⟨hc, hx⟩
    · cases hx
    · simp only [List.mem_cons, List.not_mem_nil, or_false] at hx
      rcases hx with hx | hx
      · exact absurd hx (by decide)
      · exact absurd hx (by decide)

/-- Claim C2: the filter argument of the built command is exactly
`scale=W:H` when both width and height are given, `scale=W:-1` when only the
width is given, `scale=-1:H` when only the height is given, and no filter
argument occurs in the command when neither is given (paths that are the
literal flag token are excluded). -/
theorem spec_c2 (input output : String) (o : ConversionOptions)
    (hin : input ≠ "-vf") (hout : output ≠ "-vf") :
    (∀ W H : Int, 0 < W → 0 < H → o.width = some W → o.height = some H →
      vfArgUnique (buildCmd input output o) ("scale=" ++ intStr W ++ ":" ++ intStr H)) ∧
    (∀ W : Int, 0 < W → o.width = some W → o.height = none →
      vfArgUnique (buildCmd input output o) ("scale=" ++ intStr W ++ ":-1")) ∧
    (∀ H : Int, 0 < H → o.width = none → o.height = some H →
      vfArgUnique (buildCmd input output o) ("scale=-1:" ++ intStr H)) ∧
    (o.width = none → o.height = none → "-vf" ∉ buildCmd input output o) := by
  refine ⟨?_, ?_, ?_, ?_⟩
  · intro W H hW hH ew eh
    have hsf : scale_filters o = ["scale=" ++ intStr W ++ ":" ++ intStr H] := by
      simp [scale_filters, zTruthy, ew, eh, ne_of_gt hW, ne_of_gt hH]
    exact ⟨cmd_pre input o, cmd_post output o,
      by rw [buildCmd_decomp, hsf]; simp [pyJoin_singleton],
      vf_not_mem_cmd_pre _ _ hin, vf_not_mem_cmd_post _ _ hout⟩
  · intro W hW ew eh
    have hsf : scale_filters o = ["scale=" ++ intStr W ++ ":-1"] := by
      simp [scale_filters, zTruthy, ew, eh, ne_of_gt hW]
    exact ⟨cmd_pre input o, cmd_post output o,
      by rw [buildCmd_decomp, hsf]; simp [pyJoin_singleton],
      vf_not_mem_cmd_pre _ _ hin, vf_not_mem_cmd_post _ _ hout⟩
  · intro H hH ew eh
    have hsf : scale_filters o = ["scale=-1:" ++ intStr H] := by
      simp [scale_filters, zTruthy, ew, eh, ne_of_gt hH]
    exact ⟨cmd_pre input o, cmd_post output o,
      by rw [buildCmd_decomp, hsf]; simp [pyJoin_singleton],
      vf_not_mem_cmd_pre _ _ hin, vf_not_mem_cmd_post _ _ hout⟩
  · intro ew eh
    exact vf_not_mem_buildCmd _ _ _ (by simp [scale_filters, zTruthy, ew, eh]) hin hout

theorem spec_c2_witness :
    ("in.mkv" ≠ "-vf") ∧ ("out.webp" ≠ "-vf") ∧
    vfArgUnique (buildCmd "in.mkv" "out.webp" { width := some 800 }) "scale=800:-1" :=
  ⟨by decide, by decide,
    (spec_c2 "in.mkv" "out.webp" { width := some 800 } (by decide) (by decide)).2.1
      800 (by decide) rfl rfl⟩
theorem buildCmd_decomp_quality (input output : String) (o : ConversionOptions) :
    buildCmd input output o =
      (cmd_pre input o
          ++ (if scale_filters o ≠ [] then ["-vf", pyJoin "," (scale_filters o)] else []))
        ++ (if o.lossless then ["-lossless", "1"] else ["-quality", intStr o.quality])
        ++ ((if o.loop then ["-loop", "0"] else []) ++ ["-y", output]
            ++ (if o.verbose then [] else ["-loglevel", "error"])) := by
  simp only [buildCmd, cmd_pre, List.append_assoc, List.cons_append, List.nil_append]

/-- Claim C5: the built command carries the quality flag with its numeric
value iff lossless is false, and the lossless flag with value "1" iff
lossless is true; the two flags are never both present (paths that are the
literal flag tokens are excluded). -/
theorem spec_c5 (input output : String) (o : ConversionOptions)
    (h1 : input ≠ "-quality") (h2 : output ≠ "-quality")
    (h3 : input ≠ "-lossless") (h4 : output ≠ "-lossless") :
    (o.lossless = true →
      (∃ l r, buildCmd input output o = l ++ ["-lossless", "1"] ++ r) ∧
      "-quality" ∉ buildCmd input output o) ∧
    (o.lossless = false →
      (∃ l r, buildCmd input output o = l ++ ["-quality", intStr o.quality] ++ r) ∧
      "-lossless" ∉ buildCmd input output o) ∧
    ¬("-quality" ∈ buildCmd input output o ∧ "-lossless" ∈ buildCmd input output o) := by
  refine ⟨?_, ?_, ?_⟩
  · intro hl
    refine ⟨⟨cmd_pre input o
        ++ (if scale_filters o ≠ [] then ["-vf", pyJoin "," (scale_filters o)] else []),
      (if o.loop then ["-loop", "0"] else []) ++ ["-y", output]
        ++ (if o.verbose then [] else ["-loglevel", "error"]), ?_⟩,
      quality_not_mem_buildCmd _ _ _ hl h1 h2⟩
    rw [buildCmd_decomp_quality, hl]
    rfl
  · intro hl
    refine ⟨⟨cmd_pre input o
        ++ (if scale_filters o ≠ [] then ["-vf", pyJoin "," (scale_filters o)] else []),
      (if o.loop then ["-loop", "0"] else []) ++ ["-y", output]
        ++ (if o.verbose then [] else ["-loglevel", "error"]), ?_⟩,
      lossless_not_mem_buildCmd _ _ _ hl h3 h4⟩
    rw [buildCmd_decomp_quality, hl]
    rfl
  · rintro ⟨hq, hl⟩
    cases hb : o.lossless
    · exact lossless_not_mem_buildCmd _ _ _ hb h3 h4 hl
    · exact quality_not_mem_buildCmd _ _ _ hb h1 h2 hq

theorem spec_c5_witness :
    (∃ l r, buildCmd "a.mkv" "b.webp" { lossless := true } = l ++ ["-lossless", "1"] ++ r) ∧
    "-quality" ∉ buildCmd "a.mkv" "b.webp" { lossless := true } :=
  (spec_c5 "a.mkv" "b.webp" { lossless := true }
    (by decide) (by decide) (by decide) (by decide)).1 rfl

/-- Claim C10: a duration of 0 is treated as unset — the built command
equals the command built with no duration at all, and contains no duration
flag — because the builder tests Python truthiness rather than presence. -/
theorem spec_c10 (input output : String) (o : ConversionOptions)
    (hd : o.duration = some 0) :
    buildCmd input output o = buildCmd input output { o with duration := none } ∧
    (input ≠ "-t" → output ≠ "-t" → "-t" ∉ buildCmd input output o) := by
  have hq : qTruthy o.duration = false := by rw [hd]; simp [qTruthy]
  constructor
  · simp only [buildCmd, hq]
    rfl
  · intro hin hout
    exact t_not_mem_buildCmd _ _ _ hq hin hout

theorem spec_c10_witness :
    "-t" ∉ buildCmd "a.mkv" "b.webp" { duration := some 0 } :=
  (spec_c10 "a.mkv" "b.webp" { duration := some 0 } rfl).2 (by decide) (by decide)
/-- Claim C3 (code bug): the code computes the frame rate with Python
`eval` rather than the integer-pair-division parse the spec demands.  On the
non-integer-pair string `"1+1"` the code's evaluation yields the value `2`,
while the reference parse yields no value; the two only agree on well-formed
`num/den` strings such as `"30000/1001"`. -/
theorem spec_c3_eval_bug :
    evalFrameRate "1+1" = some 2 ∧
    refFps "1+1" = none ∧
    evalFrameRate "30000/1001" = refFps "30000/1001" ∧
    refFps "30000/1001" = some ((30000 : ℚ) / 1001) := by
  have h0 : splitOnChar '+' "30000/1001".data =
      [['3', '0', '0', '0', '0', '/', '1', '0', '0', '1']] := by decide
  have h1 : splitOnChar '/' "30000/1001".data =
      [['3', '0', '0', '0', '0'], ['1', '0', '0', '1']] := by decide
  have h2 : parseIntChars ['3', '0', '0', '0', '0'] = some 30000 := by decide
  have h3 : parseIntChars ['1', '0', '0', '1'] = some 1001 := by decide
  have hp : splitOnChar '+' "1+1".data = [['1'], ['1']] := by decide
  have hq : parseIntChars ['1'] = some 1 := by decide
  refine ⟨?_, by decide, ?_, ?_⟩
  · simp only [evalFrameRate, hp, hq]
    norm_num
  · simp only [evalFrameRate, refFps, h0, h1, h2, h3]
  · simp only [refFps, h1, h2, h3]
    norm_num

/-- Claim C4: when the tool is available, the input exists and the launch
does not raise, the conversion reports success iff the subprocess exits zero
AND the output file exists afterwards; a zero exit without an output file is
reported as OutputNotCreated and returns no output path. -/
theorem spec_c4 (w : World) (input : String) (output : Option String)
    (o : ConversionOptions) (h1 : w.ffmpeg_ok = true) (h2 : w.input_exists = true)
    (h3 : w.launch_raises = false) :
    ((convert_mkv_to_webp w input output o).result.isSome ↔
      (w.run_exit = 0 ∧ w.output_exists_after = true)) ∧
    ((convert_mkv_to_webp w input output o).status = .success ↔
      (w.run_exit = 0 ∧ w.output_exists_after = true)) ∧
    (w.run_exit = 0 → w.output_exists_after = false →
      (convert_mkv_to_webp w input output o).status = .outputNotCreated ∧
      (convert_mkv_to_webp w input output o).result = none) := by
  by_cases hz : w.run_exit = 0 <;> by_cases ho : w.output_exists_after = true <;>
    simp_all [convert_mkv_to_webp]

theorem spec_c4_witness :
    (convert_mkv_to_webp ⟨true, true, false, 0, false⟩ "a.mkv" none {}).status =
      ConvStatus.outputNotCreated ∧
    (convert_mkv_to_webp ⟨true, true, false, 0, false⟩ "a.mkv" none {}).result = none :=
  (spec_c4 ⟨true, true, false, 0, false⟩ "a.mkv" none {} rfl rfl rfl).2.2 rfl rfl

/-- Claim C6: when the tool check fails, the converter reports ToolMissing
with installation guidance, returns no path and never launches the
conversion subprocess; when the tool is present but the input path does not
exist, it returns failure, again without launching a subprocess. -/
theorem spec_c6 (w : World) (input : String) (output : Option String)
    (o : ConversionOptions) :
    (w.ffmpeg_ok = false →
      (convert_mkv_to_webp w input output o).status = .toolMissing ∧
      (convert_mkv_to_webp w input output o).result = none ∧
      (convert_mkv_to_webp w input output o).launched = false ∧
      (convert_mkv_to_webp w input output o).guidance = true) ∧
    (w.ffmpeg_ok = true → w.input_exists = false →
      (convert_mkv_to_webp w input output o).status = .inputNotFound ∧
      (convert_mkv_to_webp w input output o).result = none ∧
      (convert_mkv_to_webp w input output o).launched = false) := by
  constructor
  · intro h
    simp [convert_mkv_to_webp, h]
  · intro h1 h2
    simp [convert_mkv_to_webp, h1, h2]

theorem spec_c6_witness :
    (convert_mkv_to_webp ⟨false, true, false, 0, true⟩ "a.mkv" none {}).status =
      ConvStatus.toolMissing ∧
    (convert_mkv_to_webp ⟨false, true, false, 0, true⟩ "a.mkv" none {}).result = none ∧
    (convert_mkv_to_webp ⟨false, true, false, 0, true⟩ "a.mkv" none {}).launched = false ∧
    (convert_mkv_to_webp ⟨false, true, false, 0, true⟩ "a.mkv" none {}).guidance = true :=
  (spec_c6 ⟨false, true, false, 0, true⟩ "a.mkv" none {}).1 rfl
/-- Claim C8: with no explicit output, the derived output path strips the
input's extension and appends the fixed suffix and target extension — for
`clip.mkv` it is exactly `clip_algorithm_viz.webp` — and the batch
converter's per-item derivation rule is the same function as the single
converter's. -/
theorem spec_c8 :
    derive_single "clip.mkv" = "clip_algorithm_viz.webp" ∧
    ∀ p : String, derive_single p = derive_batch p :=
  ⟨by decide, fun _ => rfl⟩

theorem spec_c8_witness :
    derive_single "dir/movie.part1.mkv" = derive_batch "dir/movie.part1.mkv" :=
  spec_c8.2 "dir/movie.part1.mkv"

/-- Claim C9 counterexample: in info-only mode on a directory path the CLI
does report the usage error and performs no probe call, but the process
exits with status 0, not the non-zero status the claim asserts. -/
theorem spec_c9_counterexample :
    (script_entry 2 ⟨false, true⟩ { input := "vids", info := true }).action =
      MainAction.infoUsageError ∧
    (script_entry 2 ⟨false, true⟩ { input := "vids", info := true }).probe_calls = 0 ∧
    (script_entry 2 ⟨false, true⟩ { input := "vids", info := true }).exit_code = 0 :=
  ⟨rfl, rfl, rfl⟩

/-- Claim C9 (amended): in info-only mode, whenever the input is not an
existing file, the CLI reports a usage error, performs no probe call, and
returns with exit status 0 (the CLI's only non-zero exit is the
zero-argument usage path). -/
theorem spec_c9_amended (argc : Nat) (w : CliWorld) (a : Args)
    (h1 : a.info = true) (h2 : w.input_is_file = false) (h3 : argc ≠ 1) :
    script_entry argc w a =
      { action := .infoUsageError, probe_calls := 0, exit_code := 0 } := by
  unfold script_entry mainModel
  simp [h1, h2, h3]

theorem spec_c9_witness :
    script_entry 2 ⟨false, false⟩ { input := "missing.mkv", info := true } =
      { action := .infoUsageError, probe_calls := 0, exit_code := 0 } :=
  spec_c9_amended 2 ⟨false, false⟩ { input := "missing.mkv", info := true }
    rfl rfl (by decide)

/-- Claim C7: on an existing directory with at least one matching file the
batch converter invokes the single converter once per matching file — one
item's failure never aborts the batch — and reports the count of successes
out of the total attempted; with the external tool unavailable every item
reports ToolMissing individually and the success count is 0. -/
theorem spec_c7 (bw : BatchWorld) (input_dir : String) (output_dir : Option String)
    (o : ConversionOptions) (h1 : bw.is_dir = true)
    (h2 : bw.files.filter isMkvName ≠ []) :
    ∃ outs : List ConvOutcome,
      outs = (bw.files.filter isMkvName).map (fun f =>
        convert_mkv_to_webp (bw.conv f) (pathJoin input_dir f)
          (some (pathJoin
            (if optStrTruthy output_dir then output_dir.getD "" else input_dir)
            (derive_batch f))) o) ∧
      batch_convert bw input_dir output_dir o =
        .done ((outs.filter fun r => optStrTruthy r.result).length)
          ((bw.files.filter isMkvName).length) outs ∧
      outs.length = (bw.files.filter isMkvName).length ∧
      ((∀ f, (bw.conv f).ffmpeg_ok = false) →
        (∀ r ∈ outs, r.status = .toolMissing ∧ r.result = none) ∧
        (outs.filter fun r => optStrTruthy r.result).length = 0) := by
  refine ⟨_, rfl, ?_, by simp, ?_⟩
  · unfold batch_convert
    simp only [h1, h2]
    rfl
  · intro hff
    constructor
    · intro r hr
      obtain ⟨f, hf, rfl⟩ := List.mem_map.mp hr
      simp [convert_mkv_to_webp, hff f]
    · rw [List.length_eq_zero, List.filter_eq_nil_iff]
      intro r hr
      obtain ⟨f, hf, rfl⟩ := List.mem_map.mp hr
      simp [convert_mkv_to_webp, hff f, optStrTruthy]

theorem spec_c7_witness :
    batch_convert sampleBatchWorld "vids" none {} =
      BatchOutcome.done 0 2 ((sampleBatchWorld.files.filter isMkvName).map (fun f =>
        convert_mkv_to_webp (sampleBatchWorld.conv f) (pathJoin "vids" f)
          (some (pathJoin "vids" (derive_batch f))) {})) := by
  obtain ⟨outs, houts, hdone, hlen, hall⟩ :=
    spec_c7 sampleBatchWorld "vids" none {} rfl (by decide)
  rw [hdone, houts]
  decide
